import Mathlib

/-!
Shallow embedding of the oszoom core: the feature-based `OSDetector`
(capability-probe classifier) and the `ZoomManager` state machine.

JavaScript numbers that only ever participate in order comparisons
(`devicePixelRatio`, zoom levels) are modelled as `Rat`; machine strings as
`String`; `undefined`-able values as `Option`; ambient browser globals read
by the classifier as fields of an `Env` snapshot record; the absence of a
live `window`/`navigator` context as the `none` case of an `Option Env`.
Calls to the external `CSSVariables.setScaleFactor` collaborator are
recorded in an explicit event list.
-/

namespace OSZoom

/-- Substring test on character lists: does the second list occur at the
front of the first? (helper for the JS `String.includes`). -/
def frontMatch : List Char → List Char → Bool
  | _, [] => true
  | [], _ :: _ => false
  | c :: cs, p :: ps => p == c && frontMatch cs ps

/-- JS `s.includes(pat)` on character lists. -/
def listIncludes : List Char → List Char → Bool
  | [], pat => frontMatch [] pat
  | s@(_ :: rest), pat => frontMatch s pat || listIncludes rest pat

/-- JS `s.includes(pat)` on strings. -/
def strIncludes (s pat : String) : Bool :=
  listIncludes s.data pat.data

/-- JS `s.toLowerCase()` (ASCII case folding, as `Char.toLower` applied
characterwise). -/
def lowerStr (s : String) : String :=
  String.mk (s.data.map Char.toLower)

/-- The `OS` union type of `types.ts`:
`'windows' | 'macos' | 'linux' | 'android' | 'ios' | 'unknown'`. -/
inductive OS where
  | windows
  | macos
  | linux
  | android
  | ios
  | unknown
deriving DecidableEq, Repr

/-- The `OSDetectionResult` interface of `types.ts`. -/
structure OSDetectionResult where
  os : OS
  version : Option String
  isMobile : Bool
  browser : Option String
deriving DecidableEq, Repr

/-- A capability-probe snapshot: the ambient browser facts read by the
feature-based `OSDetector` in one `detect()` call. Each field models one
runtime probe of the source. -/
structure Env where
  /-- `'ontouchstart' in window` -/
  ontouchstartInWindow : Bool
  /-- `navigator.maxTouchPoints` -/
  maxTouchPoints : Nat
  /-- `window.screen.width` -/
  screenWidth : Nat
  /-- `window.screen.height` -/
  screenHeight : Nat
  /-- `window.innerWidth` -/
  innerWidth : Nat
  /-- `window.innerHeight` -/
  innerHeight : Nat
  /-- `window.devicePixelRatio` -/
  devicePixelRatio : Rat
  /-- `'standalone' in window.navigator` -/
  standaloneInNavigator : Bool
  /-- `CSS.supports('-webkit-touch-callout', 'none')` -/
  cssWebkitTouchCallout : Bool
  /-- `CSS.supports('-webkit-appearance', 'none')` -/
  cssWebkitAppearance : Bool
  /-- `'TouchEvent' in window` -/
  touchEventInWindow : Bool
  /-- `typeof window.TouchEvent !== 'undefined'` -/
  touchEventDefined : Bool
  /-- `navigator.platform` after the source's `?.toLowerCase() || ''`
  coalescing (an absent or empty platform is the empty string) -/
  platform : String
  /-- `typeof window.ActiveXObject !== 'undefined'` -/
  hasActiveX : Bool
  /-- `typeof window.webkit !== 'undefined'` -/
  hasWebkit : Bool
  /-- `typeof window.safari !== 'undefined'` -/
  hasSafariObj : Bool
  /-- `typeof window.InstallTrigger !== 'undefined'` -/
  hasInstallTrigger : Bool
  /-- `typeof window.chrome !== 'undefined'` -/
  chromeDefined : Bool
  /-- `window.chrome.runtime` is truthy -/
  chromeRuntime : Bool
  /-- `window.StyleMedia` is truthy -/
  hasStyleMedia : Bool
  /-- `typeof window.webkitRequestFileSystem !== 'undefined'` -/
  webkitRequestFileSystemDefined : Bool
deriving DecidableEq, Repr

namespace OSDetector

/-- `OSDetector.isMobileDevice` (feature-based). -/
def isMobileDevice (e : Env) : Bool :=
  let hasTouchScreen := e.ontouchstartInWindow || decide (e.maxTouchPoints > 0)
  let isSmallScreen := decide (e.screenWidth < 1024) || decide (e.screenHeight < 768)
  let hasMobileAPIs := e.standaloneInNavigator
  let hasHighDPI := decide (e.devicePixelRatio > (3 / 2 : Rat))
  let hasMobileViewport := decide (e.innerWidth < 768) || decide (e.innerHeight < 768)
  hasTouchScreen && (isSmallScreen || hasMobileAPIs || (hasHighDPI && hasMobileViewport))

/-- `OSDetector.isIOSDevice` (feature-based). -/
def isIOSDevice (e : Env) : Bool :=
  let hasIOSStandalone := e.standaloneInNavigator
  let hasTouchSupport := e.ontouchstartInWindow || decide (e.maxTouchPoints > 0)
  let hasIOSCSS := e.cssWebkitTouchCallout
  let hasWebkitVendor := e.cssWebkitAppearance
  let hasIOSTouchBehavior := e.touchEventInWindow && e.touchEventDefined
  let platform := lowerStr e.platform
  let isIOSPlatform := strIncludes platform "iphone" ||
                       strIncludes platform "ipad" ||
                       strIncludes platform "ipod"
  isIOSPlatform ||
    (hasIOSStandalone && hasTouchSupport && (hasIOSCSS || hasWebkitVendor)) ||
    (hasTouchSupport && hasIOSCSS && hasIOSTouchBehavior && isMobileDevice e)

/-- `OSDetector.getIOSVersion`: both branches return `undefined`. -/
def getIOSVersion (e : Env) : Option String :=
  if e.webkitRequestFileSystemDefined then none else none

/-- `OSDetector.isAndroidDevice` (feature-based). JS `&&` binds tighter
than `||`, so `includes('android') || includes('linux') && mobile`
groups as `android || (linux && mobile)`. -/
def isAndroidDevice (e : Env) : Bool :=
  if !isMobileDevice e || isIOSDevice e then false
  else
    let hasTouchSupport := e.ontouchstartInWindow || decide (e.maxTouchPoints > 0)
    let platform := lowerStr e.platform
    let isAndroidPlatform := strIncludes platform "android" ||
                             (strIncludes platform "linux" && isMobileDevice e)
    let hasChromeFeatures := e.chromeDefined && e.chromeRuntime && isMobileDevice e
    isAndroidPlatform ||
      (hasTouchSupport && hasChromeFeatures && !isIOSDevice e)

/-- `OSDetector.getAndroidVersion`: always `undefined`. -/
def getAndroidVersion (_e : Env) : Option String :=
  none

/-- `OSDetector.isWindowsDevice` (feature-based). -/
def isWindowsDevice (e : Env) : Bool :=
  if isMobileDevice e then false
  else
    let platform := lowerStr e.platform
    let isWindowsPlatform := strIncludes platform "win" ||
                             strIncludes platform "wow64" ||
                             strIncludes platform "win64"
    let hasActiveX := e.hasActiveX
    let isDesktopScreen := decide (e.screenWidth ≥ 1024) && decide (e.screenHeight ≥ 768)
    isWindowsPlatform || (hasActiveX && isDesktopScreen)

/-- `OSDetector.getWindowsVersion`. -/
def getWindowsVersion (e : Env) : Option String :=
  let platform := lowerStr e.platform
  if strIncludes platform "win64" || strIncludes platform "wow64" then
    some "Windows 10/11"
  else if strIncludes platform "win32" then
    some "Windows"
  else
    none

/-- `OSDetector.isMacOSDevice` (feature-based). -/
def isMacOSDevice (e : Env) : Bool :=
  if isMobileDevice e then false
  else
    let platform := lowerStr e.platform
    let isMacPlatform := strIncludes platform "mac" || strIncludes platform "darwin"
    let hasWebkit := e.hasWebkit
    let hasSafariFeatures := e.hasSafariObj
    let hasRetinaDisplay := decide (e.devicePixelRatio ≥ (2 : Rat))
    isMacPlatform ||
      (hasSafariFeatures && hasWebkit && !isMobileDevice e) ||
      (hasWebkit && hasRetinaDisplay && !isWindowsDevice e && !isMobileDevice e)

/-- `OSDetector.getMacOSVersion`: always `undefined`. -/
def getMacOSVersion (_e : Env) : Option String :=
  none

/-- `OSDetector.isLinuxDevice` (feature-based). -/
def isLinuxDevice (e : Env) : Bool :=
  if isMobileDevice e || isWindowsDevice e || isMacOSDevice e then false
  else
    let platform := lowerStr e.platform
    let isLinuxPlatform := (strIncludes platform "linux" && !strIncludes platform "android") ||
                           strIncludes platform "x11"
    let hasFirefoxFeatures := e.hasInstallTrigger
    let hasChromiumFeatures := e.chromeDefined && e.chromeRuntime
    isLinuxPlatform ||
      ((hasFirefoxFeatures || hasChromiumFeatures) &&
        !isWindowsDevice e && !isMacOSDevice e && !isMobileDevice e)

/-- `OSDetector.detectFromFeatures`. -/
def detectFromFeatures (e : Env) : OSDetectionResult :=
  if isMobileDevice e then
    if isIOSDevice e then
      { os := OS.ios, version := getIOSVersion e, isMobile := true, browser := none }
    else if isAndroidDevice e then
      { os := OS.android, version := getAndroidVersion e, isMobile := true, browser := none }
    else
      -- fallback: if mobile but undetermined, default to android
      { os := OS.android, version := none, isMobile := true, browser := none }
  else
    if isWindowsDevice e then
      { os := OS.windows, version := getWindowsVersion e, isMobile := false, browser := none }
    else if isMacOSDevice e then
      { os := OS.macos, version := getMacOSVersion e, isMobile := false, browser := none }
    else if isLinuxDevice e then
      { os := OS.linux, version := none, isMobile := false, browser := none }
    else
      -- fallback: platform substring hints, then default to windows
      let platform := lowerStr e.platform
      let os0 : OS :=
        if strIncludes platform "win" then OS.windows
        else if strIncludes platform "mac" || strIncludes platform "darwin" then OS.macos
        else if strIncludes platform "linux" then OS.linux
        else OS.unknown
      let os1 : OS := if os0 = OS.unknown then OS.windows else os0
      { os := os1, version := none, isMobile := false, browser := none }

/-- `OSDetector.detectBrowserFromFeatures`. -/
def detectBrowserFromFeatures (e : Env) : Option String :=
  if e.chromeDefined && e.chromeRuntime then some "Chrome"
  else if e.hasInstallTrigger then some "Firefox"
  else if e.hasSafariObj then some "Safari"
  else if e.hasStyleMedia then some "Edge"
  else none

/-- `OSDetector.detect`: `none` models a runtime without a live
`window`/`navigator` context (the SSR branch, checked first). -/
def detect (ctx : Option Env) : OSDetectionResult :=
  match ctx with
  | none =>
      { os := OS.unknown, version := none, isMobile := false, browser := none }
  | some e =>
      let osInfo := detectFromFeatures e
      { osInfo with browser := detectBrowserFromFeatures e }

end OSDetector

/-- The per-OS `OSZoomConfig` record of `types.ts`. -/
structure OSZoomConfig where
  enabled : Bool
  zoomLevel : Rat
deriving DecidableEq, Repr

/-- The `ZoomControllerConfig` interface of `types.ts`: every field is
optional in TypeScript, hence `Option`. -/
structure ZoomControllerConfig where
  windows : Option OSZoomConfig := none
  macos : Option OSZoomConfig := none
  linux : Option OSZoomConfig := none
  android : Option OSZoomConfig := none
  ios : Option OSZoomConfig := none
  debug : Option Bool := none
  enableCSS : Option Bool := none
  enableJavaScript : Option Bool := none
deriving DecidableEq, Repr

/-- The dynamic property read `(this.config as any)[os]` of
`ZoomManager.getOSConfig`; the config object has no `'unknown'` key, so
that index yields `undefined`. -/
def configIndex (c : ZoomControllerConfig) : OS → Option OSZoomConfig
  | OS.windows => c.windows
  | OS.macos => c.macos
  | OS.linux => c.linux
  | OS.android => c.android
  | OS.ios => c.ios
  | OS.unknown => none

/-- Writing back through the same dynamic property (used to model the
in-place mutation `config.zoomLevel = zoomLevel` when the looked-up
object is one stored in the config). -/
def configWrite (c : ZoomControllerConfig) (os : OS) (v : OSZoomConfig) :
    ZoomControllerConfig :=
  match os with
  | OS.windows => { c with windows := some v }
  | OS.macos => { c with macos := some v }
  | OS.linux => { c with linux := some v }
  | OS.android => { c with android := some v }
  | OS.ios => { c with ios := some v }
  | OS.unknown => c

/-- The `ZoomState` interface of `types.ts`. -/
structure ZoomState where
  currentZoom : Rat
  appliedOS : OS
  isActive : Bool
deriving DecidableEq, Repr

/-- A `ZoomManager` instance: its two mutable fields plus an explicit
record of the `cssVariables.setScaleFactor` calls it has issued to the
external collaborator (in call order). -/
structure ZoomManager where
  state : ZoomState
  config : ZoomControllerConfig
  scaleCalls : List Rat
deriving DecidableEq, Repr

namespace ZoomManager

/-- The `ZoomManager` constructor. -/
def create (config : ZoomControllerConfig) : ZoomManager :=
  { state := { currentZoom := 1, appliedOS := OS.unknown, isActive := false },
    config := config,
    scaleCalls := [] }

/-- `ZoomManager.getOSConfig`: `(this.config as any)[os] || defaultConfig`
(an object is always truthy, `undefined` is falsy). -/
def getOSConfig (m : ZoomManager) (os : OS) : OSZoomConfig :=
  let defaultConfig : OSZoomConfig := { enabled := true, zoomLevel := 1 }
  (configIndex m.config os).getD defaultConfig

/-- `ZoomManager.applyZoom`: forwards the factor to
`cssVariables.setScaleFactor` unless `enableCSS` is explicitly `false`;
`applyJavaScriptZoom` is a documented no-op in the source. -/
def applyZoom (m : ZoomManager) (zoomLevel : Rat) : ZoomManager :=
  if m.config.enableCSS ≠ some false then
    { m with scaleCalls := m.scaleCalls ++ [zoomLevel] }
  else
    m

/-- `ZoomManager.apply`. The `this.log` calls write only to the console
and are not modelled. -/
def apply (m : ZoomManager) (os : OS) : ZoomManager :=
  let osConfig := m.getOSConfig os
  if !osConfig.enabled then
    m
  else
    let m' := { m with
      state := { currentZoom := osConfig.zoomLevel, appliedOS := os, isActive := true } }
    m'.applyZoom osConfig.zoomLevel

/-- `ZoomManager.setZoom`. The source mutates the object returned by
`getOSConfig` in place: when the config has an entry for `os` that object
IS the stored entry, so the write persists; when it does not, the write
lands on the fresh unshared `defaultConfig` object and is lost. -/
def setZoom (m : ZoomManager) (os : OS) (zoomLevel : Rat) : ZoomManager :=
  if zoomLevel < (1 / 2 : Rat) ∨ zoomLevel > 2 then
    m
  else
    let m' :=
      match configIndex m.config os with
      | some c => { m with config := configWrite m.config os { c with zoomLevel := zoomLevel } }
      | none => m
    m'.apply os

/-- `ZoomManager.getZoom`. -/
def getZoom (m : ZoomManager) (os : OS) : Rat :=
  (m.getOSConfig os).zoomLevel

/-- `ZoomManager.reset`: sets `currentZoom := 1`, `isActive := false`
(leaving `appliedOS` untouched) and unconditionally calls
`cssVariables.setScaleFactor(1)`. -/
def reset (m : ZoomManager) : ZoomManager :=
  { m with
    state := { m.state with currentZoom := 1, isActive := false },
    scaleCalls := m.scaleCalls ++ [1] }

/-- `ZoomManager.getState`: returns `{ ...this.state }`, a copy; in the
pure model a copy and the record itself coincide. -/
def getState (m : ZoomManager) : ZoomState :=
  m.state

end ZoomManager

/-- A snapshot in which every probe is negative, every dimension is
desktop-sized and the platform token is empty: a maximally
uninformative desktop environment. -/
def quietEnv : Env :=
  { ontouchstartInWindow := false, maxTouchPoints := 0, screenWidth := 1920,
    screenHeight := 1080, innerWidth := 1920, innerHeight := 1080,
    devicePixelRatio := 1, standaloneInNavigator := false,
    cssWebkitTouchCallout := false, cssWebkitAppearance := false,
    touchEventInWindow := false, touchEventDefined := false,
    platform := "", hasActiveX := false, hasWebkit := false,
    hasSafariObj := false, hasInstallTrigger := false, chromeDefined := false,
    chromeRuntime := false, hasStyleMedia := false,
    webkitRequestFileSystemDefined := false }

/-- A snapshot whose platform token is "iphone" but that carries no touch
capability, so the mobile gate of `detectFromFeatures` rejects it. -/
def iphoneNoTouchEnv : Env :=
  { quietEnv with platform := "iphone" }

/-- A touch-capable small-screen snapshot whose platform token is
"iPhone". -/
def iphoneMobileEnv : Env :=
  { quietEnv with
    platform := "iPhone",
    ontouchstartInWindow := true,
    screenWidth := 390,
    screenHeight := 844,
    innerWidth := 390,
    innerHeight := 844 }

/-- A concrete manager whose `windows` entry is disabled while its state
is active (as after a previously applied zoom). -/
def winDisabledActiveMgr : ZoomManager :=
  { state := { currentZoom := (4 : Rat) / 5, appliedOS := OS.windows, isActive := true },
    config := { windows := some { enabled := false, zoomLevel := (4 : Rat) / 5 } },
    scaleCalls := [(4 : Rat) / 5] }

/-- A concrete manager whose config holds an enabled `windows` entry at
level 1. -/
def winEnabledMgr : ZoomManager :=
  ZoomManager.create { windows := some { enabled := true, zoomLevel := 1 } }

namespace ZoomManager

theorem applyZoom_state (m : ZoomManager) (z : Rat) :
    (m.applyZoom z).state = m.state := by
  unfold applyZoom
  split <;> rfl

theorem applyZoom_config (m : ZoomManager) (z : Rat) :
    (m.applyZoom z).config = m.config := by
  unfold applyZoom
  split <;> rfl

theorem apply_config (m : ZoomManager) (os : OS) :
    (m.apply os).config = m.config := by
  unfold apply
  dsimp only
  split
  · rfl
  · rw [applyZoom_config]

theorem apply_state_of_enabled (m : ZoomManager) (os : OS)
    (h : (m.getOSConfig os).enabled = true) :
    (m.apply os).state =
      { currentZoom := (m.getOSConfig os).zoomLevel, appliedOS := os,
        isActive := true } := by
  unfold apply
  dsimp only
  rw [h]
  simp [applyZoom_state]

theorem getOSConfig_of_entry (m : ZoomManager) (os : OS) (c : OSZoomConfig)
    (hc : configIndex m.config os = some c) :
    m.getOSConfig os = c := by
  unfold getOSConfig
  rw [hc]
  rfl

theorem getOSConfig_of_absent (m : ZoomManager) (os : OS)
    (hc : configIndex m.config os = none) :
    m.getOSConfig os = { enabled := true, zoomLevel := 1 } := by
  unfold getOSConfig
  rw [hc]
  rfl

theorem apply_getState_of_entry (m : ZoomManager) (os : OS) (c : OSZoomConfig)
    (hc : configIndex m.config os = some c) (he : c.enabled = true) :
    (m.apply os).getState =
      { currentZoom := c.zoomLevel, appliedOS := os, isActive := true } := by
  have hg := getOSConfig_of_entry m os c hc
  rw [getState, apply_state_of_enabled m os (by rw [hg, he]), hg]

theorem apply_getState_of_absent (m : ZoomManager) (os : OS)
    (hc : configIndex m.config os = none) :
    (m.apply os).getState =
      { currentZoom := 1, appliedOS := os, isActive := true } := by
  have hg := getOSConfig_of_absent m os hc
  rw [getState, apply_state_of_enabled m os (by rw [hg]), hg]

theorem configIndex_configWrite_self (c : ZoomControllerConfig) (os : OS)
    (v : OSZoomConfig) (hne : os ≠ OS.unknown) :
    configIndex (configWrite c os v) os = some v := by
  cases os <;> first | rfl | exact absurd rfl hne

end ZoomManager

theorem detect_some_os (e : Env) :
    (OSDetector.detect (some e)).os = (OSDetector.detectFromFeatures e).os :=
  rfl

theorem detect_some_isMobile (e : Env) :
    (OSDetector.detect (some e)).isMobile = (OSDetector.detectFromFeatures e).isMobile :=
  rfl

/-- C1: `detect` never throws (it is a total function of the optional
context), and when the runtime provides no `window`/`navigator` context —
the `none` case, tested before anything else — it returns
`{os:'unknown', isMobile:false, browser:undefined}` with no version. -/
theorem detect_no_context_default :
    OSDetector.detect none =
      { os := OS.unknown, version := none, isMobile := false, browser := none } :=
  rfl

/-- C5: for every OS tag, manager state, and zoom level outside the
inclusive range [0.5, 2.0], `setZoom` throws nothing and changes nothing:
`getZoom`, `getState`, and the stored config all keep their pre-call
values. -/
theorem setZoom_out_of_range_noop (m : ZoomManager) (os : OS) (level : Rat)
    (h : level < (1 / 2 : Rat) ∨ level > 2) :
    (m.setZoom os level).getZoom os = m.getZoom os ∧
    (m.setZoom os level).getState = m.getState ∧
    (m.setZoom os level).config = m.config := by
  unfold ZoomManager.setZoom
  rw [if_pos h]
  exact ⟨rfl, rfl, rfl⟩

/-- Witness for C5 at a concrete manager and the out-of-range level 0.3. -/
theorem setZoom_out_of_range_noop_witness :
    ((3 / 10 : Rat) < (1 / 2 : Rat) ∨ (3 / 10 : Rat) > 2) ∧
    ((ZoomManager.create {}).setZoom OS.windows (3 / 10)).getZoom OS.windows =
      (ZoomManager.create {}).getZoom OS.windows ∧
    ((ZoomManager.create {}).setZoom OS.windows (3 / 10)).getState =
      (ZoomManager.create {}).getState ∧
    ((ZoomManager.create {}).setZoom OS.windows (3 / 10)).config =
      (ZoomManager.create {}).config := by
  refine ⟨by norm_num, ?_⟩
  exact setZoom_out_of_range_noop (ZoomManager.create {}) OS.windows (3 / 10)
    (Or.inl (by norm_num))

/-- C6: for every prior manager state and every config, `reset` leaves
`currentZoom = 1` and `isActive = false`, and unconditionally issues a
`setScaleFactor(1)` call to the StyleInjector collaborator. -/
theorem reset_forces_inactive_and_scale_one (m : ZoomManager) :
    (m.reset).getState.currentZoom = 1 ∧
    (m.reset).getState.isActive = false ∧
    (m.reset).scaleCalls = m.scaleCalls ++ [1] :=
  ⟨rfl, rfl, rfl⟩

/-- C7: `apply os` where the config entry for `os` exists with
`enabled:false` leaves the whole manager — state (including `isActive`),
config and collaborator calls — unchanged. -/
theorem apply_disabled_is_noop (m : ZoomManager) (os : OS) (c : OSZoomConfig)
    (hc : configIndex m.config os = some c) (hd : c.enabled = false) :
    m.apply os = m := by
  have hg : m.getOSConfig os = c := by
    unfold ZoomManager.getOSConfig
    rw [hc]
    rfl
  unfold ZoomManager.apply
  dsimp only
  rw [hg, hd]
  rfl

/-- Witness for C7: a manager whose `windows` entry is disabled and whose
state is active keeps its full state across `apply`. -/
theorem apply_disabled_is_noop_witness :
    configIndex winDisabledActiveMgr.config OS.windows =
        some { enabled := false, zoomLevel := (4 : Rat) / 5 } ∧
    winDisabledActiveMgr.apply OS.windows = winDisabledActiveMgr := by
  refine ⟨rfl, ?_⟩
  exact apply_disabled_is_noop winDisabledActiveMgr OS.windows
    { enabled := false, zoomLevel := (4 : Rat) / 5 } rfl rfl

/-- C4: on a manager whose config has a `windows` entry with
`enabled:true`, `setZoom('windows', 0.8)` (which itself runs `apply`)
followed by `apply('windows')` yields the state
`{currentZoom:0.8, appliedOS:'windows', isActive:true}`. -/
theorem setZoom_then_apply_windows (m : ZoomManager) (win : OSZoomConfig)
    (hw : m.config.windows = some win) (he : win.enabled = true) :
    ((m.setZoom OS.windows (4 / 5)).apply OS.windows).getState =
      { currentZoom := 4 / 5, appliedOS := OS.windows, isActive := true } := by
  have hrange : ¬((4 / 5 : Rat) < 1 / 2 ∨ (4 / 5 : Rat) > 2) := by norm_num
  unfold ZoomManager.setZoom
  rw [if_neg hrange]
  dsimp only
  have hidx : configIndex m.config OS.windows = some win := hw
  rw [hidx]
  dsimp only
  set v : OSZoomConfig := { win with zoomLevel := 4 / 5 } with hv
  set m1 : ZoomManager := { m with config := configWrite m.config OS.windows v } with hm1
  have hc1 : configIndex m1.config OS.windows = some v := by
    rw [hm1]
    exact ZoomManager.configIndex_configWrite_self m.config OS.windows v (by simp)
  have hc2 : configIndex (m1.apply OS.windows).config OS.windows = some v := by
    rw [ZoomManager.apply_config]
    exact hc1
  rw [ZoomManager.apply_getState_of_entry (m1.apply OS.windows) OS.windows v hc2
    (by rw [hv]; exact he)]

/-- Witness for C4: the concrete manager with `windows` enabled at level
1. -/
theorem setZoom_then_apply_windows_witness :
    winEnabledMgr.config.windows = some { enabled := true, zoomLevel := 1 } ∧
    ((winEnabledMgr.setZoom OS.windows (4 / 5)).apply OS.windows).getState =
      { currentZoom := 4 / 5, appliedOS := OS.windows, isActive := true } :=
  ⟨rfl, setZoom_then_apply_windows winEnabledMgr { enabled := true, zoomLevel := 1 } rfl rfl⟩

/-- C8: `apply os` on a manager whose config has no entry for `os` uses
the per-lookup fallback `{enabled:true, zoomLevel:1}` — which enables —
so the state becomes `{currentZoom:1, appliedOS:os, isActive:true}`. -/
theorem apply_absent_entry_enables (m : ZoomManager) (os : OS)
    (hc : configIndex m.config os = none) :
    (m.apply os).getState =
      { currentZoom := 1, appliedOS := os, isActive := true } :=
  ZoomManager.apply_getState_of_absent m os hc

/-- Witness for C8: the end-to-end scenario with `linux` absent from the
config. -/
theorem apply_absent_entry_enables_witness :
    configIndex (ZoomManager.create {}).config OS.linux = none ∧
    ((ZoomManager.create {}).apply OS.linux).getState =
      { currentZoom := 1, appliedOS := OS.linux, isActive := true } :=
  ⟨rfl, apply_absent_entry_enables (ZoomManager.create {}) OS.linux rfl⟩

/-- C9: `setZoom os level` with `level` in range on a manager whose
config has no entry for `os` does not persist the level: the config
still has no entry for `os`, `getZoom os` returns the fallback 1 (not
`level`), and the triggered `apply` sets `currentZoom` to 1 (not
`level`) with `isActive` true — the in-place mutation hits a fresh
fallback object that is never stored. -/
theorem setZoom_absent_entry_not_persisted (m : ZoomManager) (os : OS)
    (level : Rat) (hc : configIndex m.config os = none)
    (hlo : (1 / 2 : Rat) ≤ level) (hhi : level ≤ 2) :
    configIndex (m.setZoom os level).config os = none ∧
    (m.setZoom os level).getZoom os = 1 ∧
    (m.setZoom os level).getState =
      { currentZoom := 1, appliedOS := os, isActive := true } := by
  have hrange : ¬(level < (1 / 2 : Rat) ∨ level > 2) := by
    push_neg
    exact ⟨hlo, hhi⟩
  unfold ZoomManager.setZoom
  rw [if_neg hrange]
  dsimp only
  rw [hc]
  dsimp only
  have hcfg : (m.apply os).config = m.config := ZoomManager.apply_config m os
  refine ⟨by rw [hcfg]; exact hc, ?_, ZoomManager.apply_getState_of_absent m os hc⟩
  unfold ZoomManager.getZoom
  rw [ZoomManager.getOSConfig_of_absent (m.apply os) os (by rw [hcfg]; exact hc)]

/-- Witness for C9: `linux` absent from the config, in-range level 1.5. -/
theorem setZoom_absent_entry_not_persisted_witness :
    configIndex (ZoomManager.create {}).config OS.linux = none ∧
    (1 / 2 : Rat) ≤ 3 / 2 ∧ (3 / 2 : Rat) ≤ 2 ∧
    (configIndex ((ZoomManager.create {}).setZoom OS.linux (3 / 2)).config OS.linux = none ∧
      ((ZoomManager.create {}).setZoom OS.linux (3 / 2)).getZoom OS.linux = 1 ∧
      ((ZoomManager.create {}).setZoom OS.linux (3 / 2)).getState =
        { currentZoom := 1, appliedOS := OS.linux, isActive := true }) :=
  ⟨rfl, by norm_num, by norm_num,
    setZoom_absent_entry_not_persisted (ZoomManager.create {}) OS.linux (3 / 2)
      rfl (by norm_num) (by norm_num)⟩

/-- C2 counterexample: the snapshot `iphoneNoTouchEnv` has a platform
token containing "iphone", yet `detect` classifies it `windows`, not
`ios` — the iOS test is only reached when the mobile gate passes, and
this snapshot has no touch capability. -/
theorem detect_ios_platform_counterexample :
    strIncludes (lowerStr iphoneNoTouchEnv.platform) "iphone" = true ∧
    (OSDetector.detect (some iphoneNoTouchEnv)).os = OS.windows ∧
    (OSDetector.detect (some iphoneNoTouchEnv)).os ≠ OS.ios := by
  refine ⟨by decide, by decide, by decide⟩

/-- C2 (amended): for every snapshot that the mobile gate accepts
(`isMobileDevice`), a platform token containing "iphone", "ipad" or
"ipod" forces `detect().os = 'ios'` regardless of every other signal. -/
theorem detect_ios_platform_when_mobile (e : Env)
    (hm : OSDetector.isMobileDevice e = true)
    (hp : strIncludes (lowerStr e.platform) "iphone" = true ∨
          strIncludes (lowerStr e.platform) "ipad" = true ∨
          strIncludes (lowerStr e.platform) "ipod" = true) :
    (OSDetector.detect (some e)).os = OS.ios := by
  have hio : OSDetector.isIOSDevice e = true := by
    unfold OSDetector.isIOSDevice
    dsimp only
    rcases hp with h | h | h <;> simp [h]
  rw [detect_some_os]
  unfold OSDetector.detectFromFeatures
  simp [hm, hio]

/-- Witness for the amended C2: a touch-capable small-screen snapshot
with platform "iPhone". -/
theorem detect_ios_platform_when_mobile_witness :
    OSDetector.isMobileDevice iphoneMobileEnv = true ∧
    strIncludes (lowerStr iphoneMobileEnv.platform) "iphone" = true ∧
    (OSDetector.detect (some iphoneMobileEnv)).os = OS.ios :=
  ⟨by decide, by decide,
    detect_ios_platform_when_mobile iphoneMobileEnv (by decide) (Or.inl (by decide))⟩

/-- C3: for every desktop snapshot (mobile gate fails) matching none of
the Windows, macOS or Linux heuristics, with a platform token yielding
none of the substring hints "win", "mac", "darwin", "linux", `detect`
falls back to `windows`. -/
theorem detect_desktop_fallback_windows (e : Env)
    (hm : OSDetector.isMobileDevice e = false)
    (hw : OSDetector.isWindowsDevice e = false)
    (hmac : OSDetector.isMacOSDevice e = false)
    (hl : OSDetector.isLinuxDevice e = false)
    (h1 : strIncludes (lowerStr e.platform) "win" = false)
    (h2 : strIncludes (lowerStr e.platform) "mac" = false)
    (h3 : strIncludes (lowerStr e.platform) "darwin" = false)
    (h4 : strIncludes (lowerStr e.platform) "linux" = false) :
    (OSDetector.detect (some e)).os = OS.windows := by
  rw [detect_some_os]
  unfold OSDetector.detectFromFeatures
  simp [hm, hw, hmac, hl, h1, h2, h3, h4]

/-- Witness for C3: the all-negative desktop snapshot with an empty
platform token. -/
theorem detect_desktop_fallback_windows_witness :
    (OSDetector.isMobileDevice quietEnv = false ∧
     OSDetector.isWindowsDevice quietEnv = false ∧
     OSDetector.isMacOSDevice quietEnv = false ∧
     OSDetector.isLinuxDevice quietEnv = false ∧
     strIncludes (lowerStr quietEnv.platform) "win" = false ∧
     strIncludes (lowerStr quietEnv.platform) "mac" = false ∧
     strIncludes (lowerStr quietEnv.platform) "darwin" = false ∧
     strIncludes (lowerStr quietEnv.platform) "linux" = false) ∧
    (OSDetector.detect (some quietEnv)).os = OS.windows :=
  ⟨by decide,
    detect_desktop_fallback_windows quietEnv (by decide) (by decide) (by decide)
      (by decide) (by decide) (by decide) (by decide) (by decide)⟩

/-- C10: every `detect` result satisfies `isMobile = true` iff the
detected OS is `ios` or `android` — desktop and no-context results are
never mobile, and every mobile classification lands on `ios` or
`android` (the android fallback included). -/
theorem detect_isMobile_iff_mobile_os (ctx : Option Env) :
    (OSDetector.detect ctx).isMobile = true ↔
      ((OSDetector.detect ctx).os = OS.ios ∨ (OSDetector.detect ctx).os = OS.android) := by
  cases ctx with
  | none => simp [OSDetector.detect]
  | some e =>
    rw [detect_some_os, detect_some_isMobile]
    unfold OSDetector.detectFromFeatures
    dsimp only
    split
    · split
      · simp
      · split <;> simp
    · split
      · simp
      · split
        · simp
        · split
          · simp
          · dsimp only
            cases h1 : strIncludes (lowerStr e.platform) "win" <;>
            cases h2 : strIncludes (lowerStr e.platform) "mac" <;>
            cases h3 : strIncludes (lowerStr e.platform) "darwin" <;>
            cases h4 : strIncludes (lowerStr e.platform) "linux" <;>
            simp [h1, h2, h3, h4]

end OSZoom
